import Mathlib

/-!
Verification of the math and shader kernels of the WebGL2 glass-reflection
renderer.  Matrices are stored flat, 16 scalars long, following the source's
`Float32Array` layout; the column-major reading is `entry (row + col*4)`.
Scalar arithmetic is modelled exactly over a field (instantiated at `ℚ` for
computation and at `ℝ` where `Math.sqrt` is involved).
-/

/-- A 3-component vector, mirroring the `Float32Array([x, y, z])` values of
`math.js`. -/
@[ext]
structure Vec3 (K : Type) where
  x : K
  y : K
  z : K
deriving DecidableEq

/-- A 4-component vector, mirroring GLSL `vec4`. -/
@[ext]
structure Vec4 (K : Type) where
  x : K
  y : K
  z : K
  w : K
deriving DecidableEq

/-- A flat 4x4 matrix: the 16 scalars of the source's `Float32Array(16)`,
field `mI` holding element `[I]`. -/
@[ext]
structure Mat4 (K : Type) where
  m0 : K
  m1 : K
  m2 : K
  m3 : K
  m4 : K
  m5 : K
  m6 : K
  m7 : K
  m8 : K
  m9 : K
  m10 : K
  m11 : K
  m12 : K
  m13 : K
  m14 : K
  m15 : K
deriving DecidableEq

section FieldDefs

variable {K : Type} [Field K] [DecidableEq K]

/-- `vec3Subtract` from math.js. -/
def vec3Subtract (a b : Vec3 K) : Vec3 K :=
  ⟨a.x - b.x, a.y - b.y, a.z - b.z⟩

/-- `vec3Add` from math.js. -/
def vec3Add (a b : Vec3 K) : Vec3 K :=
  ⟨a.x + b.x, a.y + b.y, a.z + b.z⟩

/-- `vec3Cross` from math.js. -/
def vec3Cross (a b : Vec3 K) : Vec3 K :=
  ⟨a.y * b.z - a.z * b.y, a.z * b.x - a.x * b.z, a.x * b.y - a.y * b.x⟩

/-- `vec3Dot` from math.js. -/
def vec3Dot (a b : Vec3 K) : K :=
  a.x * b.x + a.y * b.y + a.z * b.z

/-- `vec3Scale` from math.js. -/
def vec3Scale (v : Vec3 K) (s : K) : Vec3 K :=
  ⟨v.x * s, v.y * s, v.z * s⟩

/-- GLSL `dot` on `vec4`, as used for the clip-plane test. -/
def vec4Dot (a b : Vec4 K) : K :=
  a.x * b.x + a.y * b.y + a.z * b.z + a.w * b.w

/-- The clip distance `dot(uClipPlane, vec4(worldPos, 1.0))` computed by
`standard.vert` / `glass.vert`. -/
def clipDistance (plane : Vec4 K) (p : Vec3 K) : K :=
  vec4Dot plane ⟨p.x, p.y, p.z, 1⟩

/-- `mat4Identity` from math.js. -/
def mat4Identity : Mat4 K :=
  ⟨1, 0, 0, 0, 0, 1, 0, 0, 0, 0, 1, 0, 0, 0, 0, 1⟩

/-- `mat4Multiply` from math.js: `out[i*4+j] = Σ_k a[i*4+k] * b[k*4+j]`. -/
def mat4Multiply (a b : Mat4 K) : Mat4 K where
  m0 := a.m0 * b.m0 + a.m1 * b.m4 + a.m2 * b.m8 + a.m3 * b.m12
  m1 := a.m0 * b.m1 + a.m1 * b.m5 + a.m2 * b.m9 + a.m3 * b.m13
  m2 := a.m0 * b.m2 + a.m1 * b.m6 + a.m2 * b.m10 + a.m3 * b.m14
  m3 := a.m0 * b.m3 + a.m1 * b.m7 + a.m2 * b.m11 + a.m3 * b.m15
  m4 := a.m4 * b.m0 + a.m5 * b.m4 + a.m6 * b.m8 + a.m7 * b.m12
  m5 := a.m4 * b.m1 + a.m5 * b.m5 + a.m6 * b.m9 + a.m7 * b.m13
  m6 := a.m4 * b.m2 + a.m5 * b.m6 + a.m6 * b.m10 + a.m7 * b.m14
  m7 := a.m4 * b.m3 + a.m5 * b.m7 + a.m6 * b.m11 + a.m7 * b.m15
  m8 := a.m8 * b.m0 + a.m9 * b.m4 + a.m10 * b.m8 + a.m11 * b.m12
  m9 := a.m8 * b.m1 + a.m9 * b.m5 + a.m10 * b.m9 + a.m11 * b.m13
  m10 := a.m8 * b.m2 + a.m9 * b.m6 + a.m10 * b.m10 + a.m11 * b.m14
  m11 := a.m8 * b.m3 + a.m9 * b.m7 + a.m10 * b.m11 + a.m11 * b.m15
  m12 := a.m12 * b.m0 + a.m13 * b.m4 + a.m14 * b.m8 + a.m15 * b.m12
  m13 := a.m12 * b.m1 + a.m13 * b.m5 + a.m14 * b.m9 + a.m15 * b.m13
  m14 := a.m12 * b.m2 + a.m13 * b.m6 + a.m14 * b.m10 + a.m15 * b.m14
  m15 := a.m12 * b.m3 + a.m13 * b.m7 + a.m14 * b.m11 + a.m15 * b.m15

/-- The matrix product the specification describes: `result = A·B` with
column-major storage and the element convention `[row + col*4]`; that is,
`out[r + 4c] = Σ_k A[r + 4k] * B[k + 4c]`.  This definition follows the
spec's words and is compared against `mat4Multiply`, which follows the
code. -/
def mat4MulSpec (a b : Mat4 K) : Mat4 K where
  m0 := a.m0 * b.m0 + a.m4 * b.m1 + a.m8 * b.m2 + a.m12 * b.m3
  m1 := a.m1 * b.m0 + a.m5 * b.m1 + a.m9 * b.m2 + a.m13 * b.m3
  m2 := a.m2 * b.m0 + a.m6 * b.m1 + a.m10 * b.m2 + a.m14 * b.m3
  m3 := a.m3 * b.m0 + a.m7 * b.m1 + a.m11 * b.m2 + a.m15 * b.m3
  m4 := a.m0 * b.m4 + a.m4 * b.m5 + a.m8 * b.m6 + a.m12 * b.m7
  m5 := a.m1 * b.m4 + a.m5 * b.m5 + a.m9 * b.m6 + a.m13 * b.m7
  m6 := a.m2 * b.m4 + a.m6 * b.m5 + a.m10 * b.m6 + a.m14 * b.m7
  m7 := a.m3 * b.m4 + a.m7 * b.m5 + a.m11 * b.m6 + a.m15 * b.m7
  m8 := a.m0 * b.m8 + a.m4 * b.m9 + a.m8 * b.m10 + a.m12 * b.m11
  m9 := a.m1 * b.m8 + a.m5 * b.m9 + a.m9 * b.m10 + a.m13 * b.m11
  m10 := a.m2 * b.m8 + a.m6 * b.m9 + a.m10 * b.m10 + a.m14 * b.m11
  m11 := a.m3 * b.m8 + a.m7 * b.m9 + a.m11 * b.m10 + a.m15 * b.m11
  m12 := a.m0 * b.m12 + a.m4 * b.m13 + a.m8 * b.m14 + a.m12 * b.m15
  m13 := a.m1 * b.m12 + a.m5 * b.m13 + a.m9 * b.m14 + a.m13 * b.m15
  m14 := a.m2 * b.m12 + a.m6 * b.m13 + a.m10 * b.m14 + a.m14 * b.m15
  m15 := a.m3 * b.m12 + a.m7 * b.m13 + a.m11 * b.m14 + a.m15 * b.m15

/-- `mat4Translate` from math.js: identity with `m[12..14]` set to `t`. -/
def mat4Translate (t : Vec3 K) : Mat4 K :=
  ⟨1, 0, 0, 0, 0, 1, 0, 0, 0, 0, 1, 0, t.x, t.y, t.z, 1⟩

/-- `mat4Scale` from math.js: identity with `m[0]`, `m[5]`, `m[10]` set. -/
def mat4ScaleMat (s : Vec3 K) : Mat4 K :=
  ⟨s.x, 0, 0, 0, 0, s.y, 0, 0, 0, 0, s.z, 0, 0, 0, 0, 1⟩

/-- The cofactor array `out[0..15]` computed by `mat4Invert` in math.js
before the determinant division. -/
def mat4InvertAux (m : Mat4 K) : Mat4 K where
  m0 := m.m5 * m.m10 * m.m15 - m.m5 * m.m11 * m.m14 - m.m9 * m.m6 * m.m15 + m.m9 * m.m7 * m.m14 + m.m13 * m.m6 * m.m11 - m.m13 * m.m7 * m.m10
  m1 := -m.m1 * m.m10 * m.m15 + m.m1 * m.m11 * m.m14 + m.m9 * m.m2 * m.m15 - m.m9 * m.m3 * m.m14 - m.m13 * m.m2 * m.m11 + m.m13 * m.m3 * m.m10
  m2 := m.m1 * m.m6 * m.m15 - m.m1 * m.m7 * m.m14 - m.m5 * m.m2 * m.m15 + m.m5 * m.m3 * m.m14 + m.m13 * m.m2 * m.m7 - m.m13 * m.m3 * m.m6
  m3 := -m.m1 * m.m6 * m.m11 + m.m1 * m.m7 * m.m10 + m.m5 * m.m2 * m.m11 - m.m5 * m.m3 * m.m10 - m.m9 * m.m2 * m.m7 + m.m9 * m.m3 * m.m6
  m4 := -m.m4 * m.m10 * m.m15 + m.m4 * m.m11 * m.m14 + m.m8 * m.m6 * m.m15 - m.m8 * m.m7 * m.m14 - m.m12 * m.m6 * m.m11 + m.m12 * m.m7 * m.m10
  m5 := m.m0 * m.m10 * m.m15 - m.m0 * m.m11 * m.m14 - m.m8 * m.m2 * m.m15 + m.m8 * m.m3 * m.m14 + m.m12 * m.m2 * m.m11 - m.m12 * m.m3 * m.m10
  m6 := -m.m0 * m.m6 * m.m15 + m.m0 * m.m7 * m.m14 + m.m4 * m.m2 * m.m15 - m.m4 * m.m3 * m.m14 - m.m12 * m.m2 * m.m7 + m.m12 * m.m3 * m.m6
  m7 := m.m0 * m.m6 * m.m11 - m.m0 * m.m7 * m.m10 - m.m4 * m.m2 * m.m11 + m.m4 * m.m3 * m.m10 + m.m8 * m.m2 * m.m7 - m.m8 * m.m3 * m.m6
  m8 := m.m4 * m.m9 * m.m15 - m.m4 * m.m11 * m.m13 - m.m8 * m.m5 * m.m15 + m.m8 * m.m7 * m.m13 + m.m12 * m.m5 * m.m11 - m.m12 * m.m7 * m.m9
  m9 := -m.m0 * m.m9 * m.m15 + m.m0 * m.m11 * m.m13 + m.m8 * m.m1 * m.m15 - m.m8 * m.m3 * m.m13 - m.m12 * m.m1 * m.m11 + m.m12 * m.m3 * m.m9
  m10 := m.m0 * m.m5 * m.m15 - m.m0 * m.m7 * m.m13 - m.m4 * m.m1 * m.m15 + m.m4 * m.m3 * m.m13 + m.m12 * m.m1 * m.m7 - m.m12 * m.m3 * m.m5
  m11 := -m.m0 * m.m5 * m.m11 + m.m0 * m.m7 * m.m9 + m.m4 * m.m1 * m.m11 - m.m4 * m.m3 * m.m9 - m.m8 * m.m1 * m.m7 + m.m8 * m.m3 * m.m5
  m12 := -m.m4 * m.m9 * m.m14 + m.m4 * m.m10 * m.m13 + m.m8 * m.m5 * m.m14 - m.m8 * m.m6 * m.m13 - m.m12 * m.m5 * m.m10 + m.m12 * m.m6 * m.m9
  m13 := m.m0 * m.m9 * m.m14 - m.m0 * m.m10 * m.m13 - m.m8 * m.m1 * m.m14 + m.m8 * m.m2 * m.m13 + m.m12 * m.m1 * m.m10 - m.m12 * m.m2 * m.m9
  m14 := -m.m0 * m.m5 * m.m14 + m.m0 * m.m6 * m.m13 + m.m4 * m.m1 * m.m14 - m.m4 * m.m2 * m.m13 - m.m12 * m.m1 * m.m6 + m.m12 * m.m2 * m.m5
  m15 := m.m0 * m.m5 * m.m10 - m.m0 * m.m6 * m.m9 - m.m4 * m.m1 * m.m10 + m.m4 * m.m2 * m.m9 + m.m8 * m.m1 * m.m6 - m.m8 * m.m2 * m.m5

/-- The determinant as computed by `mat4Invert`:
`det = m[0]*out[0] + m[1]*out[4] + m[2]*out[8] + m[3]*out[12]`. -/
def mat4Det (m : Mat4 K) : K :=
  m.m0 * (mat4InvertAux m).m0 + m.m1 * (mat4InvertAux m).m4 +
    m.m2 * (mat4InvertAux m).m8 + m.m3 * (mat4InvertAux m).m12

/-- The final loop of `mat4Invert`: every entry multiplied by a scalar. -/
def mat4ScaleAll (m : Mat4 K) (d : K) : Mat4 K :=
  ⟨m.m0 * d, m.m1 * d, m.m2 * d, m.m3 * d, m.m4 * d, m.m5 * d, m.m6 * d,
    m.m7 * d, m.m8 * d, m.m9 * d, m.m10 * d, m.m11 * d, m.m12 * d, m.m13 * d,
    m.m14 * d, m.m15 * d⟩

/-- `mat4Invert` from math.js: cofactor array, determinant check
(`det === 0` returns the identity), then multiplication by `1/det`. -/
def mat4Invert (m : Mat4 K) : Mat4 K :=
  if mat4Det m = 0 then mat4Identity
  else mat4ScaleAll (mat4InvertAux m) (1 / mat4Det m)

/-- The `Float32Array` literal built by `mat4LookAt` from the basis vectors
`x`, `y`, `z` and the eye position. -/
def lookAtMat (x y z eye : Vec3 K) : Mat4 K :=
  ⟨x.x, y.x, z.x, 0, x.y, y.y, z.y, 0, x.z, y.z, z.z, 0,
    -vec3Dot x eye, -vec3Dot y eye, -vec3Dot z eye, 1⟩

/-- `reflectPointAcrossPlane` from main.js:
`point - normal * (2 * (dot(normal, point) + d))`. -/
def reflectPointAcrossPlane (point planeNormal : Vec3 K) (planeD : K) : Vec3 K :=
  vec3Subtract point (vec3Scale planeNormal (2 * (vec3Dot planeNormal point + planeD)))

/-- `reflectDirectionAcrossPlane` from main.js:
`direction - normal * (2 * dot(normal, direction))`. -/
def reflectDirectionAcrossPlane (direction planeNormal : Vec3 K) : Vec3 K :=
  vec3Subtract direction (vec3Scale planeNormal (2 * vec3Dot planeNormal direction))

end FieldDefs

/-- `vec3Normalize` from math.js: divide by `Math.sqrt(x²+y²+z²)` when the
length is positive, otherwise return the zero vector. -/
noncomputable def vec3Normalize (v : Vec3 ℝ) : Vec3 ℝ :=
  let len := Real.sqrt (v.x * v.x + v.y * v.y + v.z * v.z)
  if 0 < len then ⟨v.x / len, v.y / len, v.z / len⟩ else ⟨0, 0, 0⟩

/-- `mat4LookAt` from math.js. -/
noncomputable def mat4LookAt (eye target up : Vec3 ℝ) : Mat4 ℝ :=
  let z := vec3Normalize (vec3Subtract eye target)
  let x := vec3Normalize (vec3Cross up z)
  let y := vec3Cross z x
  lookAtMat x y z eye

/-- Entrywise closeness of two matrices within a tolerance, as measured by
the `testMath` self-test's max-error loop. -/
def mat4Approx (a b : Mat4 ℝ) (tol : ℝ) : Prop :=
  |a.m0 - b.m0| ≤ tol ∧ |a.m1 - b.m1| ≤ tol ∧ |a.m2 - b.m2| ≤ tol ∧
    |a.m3 - b.m3| ≤ tol ∧ |a.m4 - b.m4| ≤ tol ∧ |a.m5 - b.m5| ≤ tol ∧
    |a.m6 - b.m6| ≤ tol ∧ |a.m7 - b.m7| ≤ tol ∧ |a.m8 - b.m8| ≤ tol ∧
    |a.m9 - b.m9| ≤ tol ∧ |a.m10 - b.m10| ≤ tol ∧ |a.m11 - b.m11| ≤ tol ∧
    |a.m12 - b.m12| ≤ tol ∧ |a.m13 - b.m13| ≤ tol ∧ |a.m14 - b.m14| ≤ tol ∧
    |a.m15 - b.m15| ≤ tol

/-- Componentwise closeness of two vectors within a tolerance. -/
def vec3Approx (a b : Vec3 ℝ) (tol : ℝ) : Prop :=
  |a.x - b.x| ≤ tol ∧ |a.y - b.y| ≤ tol ∧ |a.z - b.z| ≤ tol

/-! ### Shared algebraic lemmas about the math library -/

lemma mat4Multiply_scaleAll_right {K : Type} [Field K] [DecidableEq K]
    (a b : Mat4 K) (d : K) :
    mat4Multiply a (mat4ScaleAll b d) = mat4ScaleAll (mat4Multiply a b) d := by
  obtain ⟨a0, a1, a2, a3, a4, a5, a6, a7, a8, a9, a10, a11, a12, a13, a14, a15⟩ := a
  obtain ⟨b0, b1, b2, b3, b4, b5, b6, b7, b8, b9, b10, b11, b12, b13, b14, b15⟩ := b
  simp only [mat4Multiply, mat4ScaleAll, Mat4.mk.injEq]
  refine ⟨?_, ?_, ?_, ?_, ?_, ?_, ?_, ?_, ?_, ?_, ?_, ?_, ?_, ?_, ?_, ?_⟩ <;> ring

set_option maxHeartbeats 2000000 in
lemma mat4Multiply_invertAux {K : Type} [Field K] [DecidableEq K] (m : Mat4 K) :
    mat4Multiply m (mat4InvertAux m) = mat4ScaleAll mat4Identity (mat4Det m) := by
  obtain ⟨m0, m1, m2, m3, m4, m5, m6, m7, m8, m9, m10, m11, m12, m13, m14, m15⟩ := m
  simp only [mat4Multiply, mat4InvertAux, mat4Det, mat4ScaleAll, mat4Identity, Mat4.mk.injEq]
  refine ⟨?_, ?_, ?_, ?_, ?_, ?_, ?_, ?_, ?_, ?_, ?_, ?_, ?_, ?_, ?_, ?_⟩ <;> ring

lemma mat4Multiply_mat4Invert {K : Type} [Field K] [DecidableEq K]
    (m : Mat4 K) (h : mat4Det m ≠ 0) :
    mat4Multiply m (mat4Invert m) = mat4Identity := by
  rw [mat4Invert, if_neg h, mat4Multiply_scaleAll_right, mat4Multiply_invertAux]
  simp only [mat4ScaleAll, mat4Identity, Mat4.mk.injEq, one_mul, zero_mul, mul_one, mul_zero]
  field_simp

lemma mat4Approx_of_eq {a b : Mat4 ℝ} {tol : ℝ} (h : a = b) (ht : 0 ≤ tol) :
    mat4Approx a b tol := by
  subst h
  simp [mat4Approx, sub_self, abs_zero, ht]

/-! ### Claim C1: multiplication order under the column-major convention -/

/-- C1 (as stated) is false: at `A = translate(1,0,0)` and `B = scale(2,1,1)`,
`mat4Multiply(A, B)` is not the column-major representation of `A·B`.  Its
translation entry `[12]` is `2` (scale-then-translate read as `B·A`) while
`(A·B)[12] = 1`. -/
theorem mat4Multiply_not_spec_product :
    mat4Multiply (mat4Translate (⟨1, 0, 0⟩ : Vec3 ℚ)) (mat4ScaleMat ⟨2, 1, 1⟩) ≠
        mat4MulSpec (mat4Translate ⟨1, 0, 0⟩) (mat4ScaleMat ⟨2, 1, 1⟩) ∧
      (mat4Multiply (mat4Translate (⟨1, 0, 0⟩ : Vec3 ℚ)) (mat4ScaleMat ⟨2, 1, 1⟩)).m12 = 2 ∧
      (mat4MulSpec (mat4Translate (⟨1, 0, 0⟩ : Vec3 ℚ)) (mat4ScaleMat ⟨2, 1, 1⟩)).m12 = 1 := by
  refine ⟨?_, ?_, ?_⟩ <;>
    norm_num [mat4Multiply, mat4MulSpec, mat4Translate, mat4ScaleMat, Mat4.mk.injEq]

/-- C1 (amended): under the column-major `[row + col*4]` convention,
`mat4Multiply(A, B)` returns the column-major representation of the product
`B·A` — equivalently, it computes `A·B` when the flat arrays are read
row-major. -/
theorem mat4Multiply_eq_mulSpec_swap (a b : Mat4 ℚ) :
    mat4Multiply a b = mat4MulSpec b a := by
  obtain ⟨a0, a1, a2, a3, a4, a5, a6, a7, a8, a9, a10, a11, a12, a13, a14, a15⟩ := a
  obtain ⟨b0, b1, b2, b3, b4, b5, b6, b7, b8, b9, b10, b11, b12, b13, b14, b15⟩ := b
  simp only [mat4Multiply, mat4MulSpec, Mat4.mk.injEq]
  refine ⟨?_, ?_, ?_, ?_, ?_, ?_, ?_, ?_, ?_, ?_, ?_, ?_, ?_, ?_, ?_, ?_⟩ <;> ring

/-! ### Claim C2: singular-matrix handling in `mat4Invert` -/

/-- C2: when the cofactor-expansion determinant is exactly zero `mat4Invert`
returns the identity matrix, and the division by the determinant is performed
only in the branch where the determinant is nonzero. -/
theorem mat4Invert_singular_to_identity :
    ∀ m : Mat4 ℚ,
      (mat4Det m = 0 → mat4Invert m = mat4Identity) ∧
        (mat4Det m ≠ 0 →
          mat4Invert m = mat4ScaleAll (mat4InvertAux m) (1 / mat4Det m)) := by
  intro m
  constructor <;> intro h <;> simp [mat4Invert, h]

/-- C2 witness: the axis-aligned scale by `(1,1,0)` is singular and inverts to
the identity; the translation by `(1,2,3)` is non-singular and takes the
division branch. -/
theorem mat4Invert_singular_to_identity_witness :
    (mat4Det (mat4ScaleMat (⟨1, 1, 0⟩ : Vec3 ℚ)) = 0 ∧
        mat4Invert (mat4ScaleMat (⟨1, 1, 0⟩ : Vec3 ℚ)) = mat4Identity) ∧
      mat4Det (mat4Translate (⟨1, 2, 3⟩ : Vec3 ℚ)) ≠ 0 ∧
        mat4Invert (mat4Translate (⟨1, 2, 3⟩ : Vec3 ℚ)) =
          mat4ScaleAll (mat4InvertAux (mat4Translate ⟨1, 2, 3⟩))
            (1 / mat4Det (mat4Translate ⟨1, 2, 3⟩)) := by
  have h0 : mat4Det (mat4ScaleMat (⟨1, 1, 0⟩ : Vec3 ℚ)) = 0 := by
    norm_num [mat4Det, mat4InvertAux, mat4ScaleMat]
  have h1 : mat4Det (mat4Translate (⟨1, 2, 3⟩ : Vec3 ℚ)) ≠ 0 := by
    norm_num [mat4Det, mat4InvertAux, mat4Translate]
  exact ⟨⟨h0, (mat4Invert_singular_to_identity _).1 h0⟩,
    h1, (mat4Invert_singular_to_identity _).2 h1⟩

/-! ### Lemmas about `vec3Normalize` and `mat4LookAt` -/

lemma vec3Normalize_zero : vec3Normalize ⟨0, 0, 0⟩ = ⟨0, 0, 0⟩ := by
  simp [vec3Normalize, Real.sqrt_zero]

lemma vec3Normalize_dot_self (v : Vec3 ℝ) (hv : v ≠ ⟨0, 0, 0⟩) :
    vec3Dot (vec3Normalize v) (vec3Normalize v) = 1 := by
  have hS0 : 0 ≤ v.x * v.x + v.y * v.y + v.z * v.z := by
    nlinarith [mul_self_nonneg v.x, mul_self_nonneg v.y, mul_self_nonneg v.z]
  have hS : 0 < v.x * v.x + v.y * v.y + v.z * v.z := by
    rcases hS0.lt_or_eq with h | h
    · exact h
    · exfalso
      have hx : v.x = 0 := by
        nlinarith [mul_self_nonneg v.x, mul_self_nonneg v.y, mul_self_nonneg v.z]
      have hy : v.y = 0 := by
        nlinarith [mul_self_nonneg v.x, mul_self_nonneg v.y, mul_self_nonneg v.z]
      have hz : v.z = 0 := by
        nlinarith [mul_self_nonneg v.x, mul_self_nonneg v.y, mul_self_nonneg v.z]
      exact hv (by ext <;> simp [hx, hy, hz])
  have hlen : 0 < Real.sqrt (v.x * v.x + v.y * v.y + v.z * v.z) := Real.sqrt_pos.mpr hS
  simp only [vec3Normalize, if_pos hlen, vec3Dot]
  field_simp

lemma vec3Normalize_dot_vanish (v w : Vec3 ℝ) (h : vec3Dot v w = 0) :
    vec3Dot (vec3Normalize v) w = 0 := by
  simp only [vec3Normalize]
  by_cases hlen : 0 < Real.sqrt (v.x * v.x + v.y * v.y + v.z * v.z)
  · rw [if_pos hlen]
    simp only [vec3Dot] at h ⊢
    field_simp
    linarith [h]
  · rw [if_neg hlen]
    simp [vec3Dot]

lemma vec3Cross_dot_right {K : Type} [Field K] [DecidableEq K] (a b : Vec3 K) :
    vec3Dot (vec3Cross a b) b = 0 := by
  obtain ⟨ax, ay, az⟩ := a
  obtain ⟨bx, bv, bz⟩ := b
  simp only [vec3Cross, vec3Dot]
  ring

lemma mat4Det_lookAtMat {K : Type} [Field K] [DecidableEq K] (x y z e : Vec3 K) :
    mat4Det (lookAtMat x y z e) = vec3Dot x (vec3Cross y z) := by
  obtain ⟨xx, xy, xz⟩ := x
  obtain ⟨yx, yy, yz⟩ := y
  obtain ⟨zx, zy, zz⟩ := z
  obtain ⟨ex, ey, ez⟩ := e
  simp only [mat4Det, mat4InvertAux, lookAtMat, vec3Dot, vec3Cross]
  ring

lemma vec3Dot_cross_cross {K : Type} [Field K] [DecidableEq K] (x z : Vec3 K) :
    vec3Dot x (vec3Cross (vec3Cross z x) z) =
      vec3Dot z z * vec3Dot x x - vec3Dot x z * vec3Dot x z := by
  obtain ⟨xx, xy, xz⟩ := x
  obtain ⟨zx, zy, zz⟩ := z
  simp only [vec3Cross, vec3Dot]
  ring

lemma mat4Det_lookAt (eye target up : Vec3 ℝ)
    (h1 : vec3Subtract eye target ≠ ⟨0, 0, 0⟩)
    (h2 : vec3Cross up (vec3Normalize (vec3Subtract eye target)) ≠ ⟨0, 0, 0⟩) :
    mat4Det (mat4LookAt eye target up) = 1 := by
  simp only [mat4LookAt]
  rw [mat4Det_lookAtMat, vec3Dot_cross_cross,
    vec3Normalize_dot_self _ h1, vec3Normalize_dot_self _ h2,
    vec3Normalize_dot_vanish _ _ (vec3Cross_dot_right up _)]
  ring

/-! ### Claim C3: `M · invert(M) ≈ I` and the look-at round trip -/

/-- C3: for every non-singular matrix `M` the library product of `M` and
`mat4Invert M` is within `1e-4` of the identity in every entry (here it is
exactly the identity), and in particular this holds for every look-at matrix
built from `eye ≠ target` and an `up` vector not parallel to the eye-to-target
axis. -/
theorem mat4_invert_roundtrip_identity_approx :
    (∀ M : Mat4 ℝ, mat4Det M ≠ 0 →
        mat4Approx (mat4Multiply M (mat4Invert M)) mat4Identity (1 / 10000)) ∧
      ∀ eye target up : Vec3 ℝ,
        vec3Subtract eye target ≠ ⟨0, 0, 0⟩ →
        vec3Cross up (vec3Normalize (vec3Subtract eye target)) ≠ ⟨0, 0, 0⟩ →
        mat4Approx
          (mat4Multiply (mat4LookAt eye target up) (mat4Invert (mat4LookAt eye target up)))
          mat4Identity (1 / 10000) := by
  constructor
  · intro M hM
    exact mat4Approx_of_eq (mat4Multiply_mat4Invert M hM) (by norm_num)
  · intro eye target up h1 h2
    have hdet : mat4Det (mat4LookAt eye target up) = 1 := mat4Det_lookAt eye target up h1 h2
    refine mat4Approx_of_eq (mat4Multiply_mat4Invert _ ?_) (by norm_num)
    rw [hdet]
    norm_num

/-- C3 witness: the identity matrix is non-singular and round-trips; the
look-at frame for eye `(0,0,1)`, target `(0,0,0)`, up `(0,1,0)` is
non-degenerate and round-trips. -/
theorem mat4_invert_roundtrip_identity_approx_witness :
    (mat4Det (mat4Identity : Mat4 ℝ) ≠ 0 ∧
        mat4Approx (mat4Multiply (mat4Identity : Mat4 ℝ) (mat4Invert mat4Identity))
          mat4Identity (1 / 10000)) ∧
      vec3Subtract (⟨0, 0, 1⟩ : Vec3 ℝ) ⟨0, 0, 0⟩ ≠ ⟨0, 0, 0⟩ ∧
        vec3Cross (⟨0, 1, 0⟩ : Vec3 ℝ)
            (vec3Normalize (vec3Subtract (⟨0, 0, 1⟩ : Vec3 ℝ) ⟨0, 0, 0⟩)) ≠ ⟨0, 0, 0⟩ ∧
        mat4Approx
          (mat4Multiply (mat4LookAt (⟨0, 0, 1⟩ : Vec3 ℝ) ⟨0, 0, 0⟩ ⟨0, 1, 0⟩)
            (mat4Invert (mat4LookAt (⟨0, 0, 1⟩ : Vec3 ℝ) ⟨0, 0, 0⟩ ⟨0, 1, 0⟩)))
          mat4Identity (1 / 10000) := by
  have hdet : mat4Det (mat4Identity : Mat4 ℝ) ≠ 0 := by
    norm_num [mat4Det, mat4InvertAux, mat4Identity]
  have hsub : vec3Subtract (⟨0, 0, 1⟩ : Vec3 ℝ) ⟨0, 0, 0⟩ = ⟨0, 0, 1⟩ := by
    simp [vec3Subtract]
  have h1 : vec3Subtract (⟨0, 0, 1⟩ : Vec3 ℝ) ⟨0, 0, 0⟩ ≠ ⟨0, 0, 0⟩ := by
    rw [hsub]
    simp only [ne_eq, Vec3.mk.injEq]
    norm_num
  have hn : vec3Normalize (vec3Subtract (⟨0, 0, 1⟩ : Vec3 ℝ) ⟨0, 0, 0⟩) = ⟨0, 0, 1⟩ := by
    rw [hsub]
    norm_num [vec3Normalize, Real.sqrt_one, Vec3.mk.injEq]
  have h2 : vec3Cross (⟨0, 1, 0⟩ : Vec3 ℝ)
      (vec3Normalize (vec3Subtract (⟨0, 0, 1⟩ : Vec3 ℝ) ⟨0, 0, 0⟩)) ≠ ⟨0, 0, 0⟩ := by
    rw [hn]
    simp only [vec3Cross, ne_eq, Vec3.mk.injEq]
    norm_num
  exact ⟨⟨hdet, mat4_invert_roundtrip_identity_approx.1 _ hdet⟩, h1, h2,
    mat4_invert_roundtrip_identity_approx.2 _ _ _ h1 h2⟩

/-! ### Claim C4: reflection across a plane is its own inverse -/

lemma vec3Approx_of_eq {a b : Vec3 ℝ} {tol : ℝ} (h : a = b) (ht : 0 ≤ tol) :
    vec3Approx a b tol := by
  subst h
  simp [vec3Approx, sub_self, abs_zero, ht]

lemma reflectPoint_involutive {K : Type} [Field K] [DecidableEq K]
    (p n : Vec3 K) (d : K) (h : vec3Dot n n = 1) :
    reflectPointAcrossPlane (reflectPointAcrossPlane p n d) n d = p := by
  obtain ⟨px, py, pz⟩ := p
  obtain ⟨nx, ny, nz⟩ := n
  simp only [vec3Dot] at h
  simp only [reflectPointAcrossPlane, vec3Subtract, vec3Scale, vec3Dot, Vec3.mk.injEq]
  refine ⟨?_, ?_, ?_⟩
  · linear_combination (4 * (nx * px + ny * py + nz * pz + d) * nx) * h
  · linear_combination (4 * (nx * px + ny * py + nz * pz + d) * ny) * h
  · linear_combination (4 * (nx * px + ny * py + nz * pz + d) * nz) * h

/-- C4: for every point `p` and plane `(n, d)` with `n` a unit normal,
reflecting `p` across the plane twice returns `p` to within `1e-4` in every
component (here exactly). -/
theorem reflectPoint_double_approx :
    ∀ (p n : Vec3 ℝ) (d : ℝ), vec3Dot n n = 1 →
      vec3Approx (reflectPointAcrossPlane (reflectPointAcrossPlane p n d) n d) p
        (1 / 10000) := by
  intro p n d h
  exact vec3Approx_of_eq (reflectPoint_involutive p n d h) (by norm_num)

/-- C4 witness: the point `(1,2,5)` reflected twice across the plane
`z = -3` (normal `(0,0,1)`, `d = 3`) comes back to itself. -/
theorem reflectPoint_double_approx_witness :
    vec3Dot (⟨0, 0, 1⟩ : Vec3 ℝ) ⟨0, 0, 1⟩ = 1 ∧
      vec3Approx
        (reflectPointAcrossPlane
          (reflectPointAcrossPlane (⟨1, 2, 5⟩ : Vec3 ℝ) ⟨0, 0, 1⟩ 3) ⟨0, 0, 1⟩ 3)
        ⟨1, 2, 5⟩ (1 / 10000) := by
  have h : vec3Dot (⟨0, 0, 1⟩ : Vec3 ℝ) ⟨0, 0, 1⟩ = 1 := by norm_num [vec3Dot]
  exact ⟨h, reflectPoint_double_approx ⟨1, 2, 5⟩ ⟨0, 0, 1⟩ 3 h⟩

/-! ### The glass fragment shader (glass.frag), modelled over ℚ -/

/-- The Fresnel term of glass.frag: `pow(1.0 - max(dot(N, V), 0.0), 3.0)`. -/
def fresnelTerm (n v : Vec3 ℚ) : ℚ :=
  (1 - max (vec3Dot n v) 0) ^ 3

/-- The alpha output of glass.frag:
`(1.0 - uTransparency) * (0.2 + 0.8 * fresnel)`. -/
def glassAlpha (transparency fresnel : ℚ) : ℚ :=
  (1 - transparency) * (0.2 + 0.8 * fresnel)

/-- GLSL `clamp(x, lo, hi)`. -/
def clampScalar (x lo hi : ℚ) : ℚ :=
  min (max x lo) hi

/-- The reflection texture coordinate of glass.frag: perspective divide of
`vReflectionClipPos.xy` by `w`, remapped by `* 0.5 + 0.5` and clamped to the
unit square. -/
def glassReflUV (clip : Vec4 ℚ) : ℚ × ℚ :=
  (clampScalar (clip.x / clip.w * 0.5 + 0.5) 0 1,
    clampScalar (clip.y / clip.w * 0.5 + 0.5) 0 1)

/-- The reflection color of glass.frag: sample the reflection texture at the
clamped screen UV when `vReflectionClipPos.w > 0.01`, otherwise keep the
fallback `tintedBase * 0.5`. -/
def glassReflColor (sample : ℚ → ℚ → Vec3 ℚ) (tintedBase : Vec3 ℚ)
    (clip : Vec4 ℚ) : Vec3 ℚ :=
  if clip.w > 0.01 then sample (glassReflUV clip).1 (glassReflUV clip).2
  else vec3Scale tintedBase 0.5

/-! ### Claim C5: Fresnel at head-on and grazing incidence -/

/-- C5: the glass Fresnel term `(1 - max(dot(N,V), 0))^3` is `0` when
`dot(N,V) = 1` (head-on) and `1` when `dot(N,V) = 0` (grazing). -/
theorem glass_fresnel_head_on_grazing :
    ∀ n v : Vec3 ℚ,
      (vec3Dot n v = 1 → fresnelTerm n v = 0) ∧
        (vec3Dot n v = 0 → fresnelTerm n v = 1) := by
  intro n v
  constructor <;> intro h <;> norm_num [fresnelTerm, h]

/-- C5 witness: head-on at `N = V = (0,0,1)` gives Fresnel `0`; grazing at
`N = (0,0,1)`, `V = (1,0,0)` gives Fresnel `1`. -/
theorem glass_fresnel_head_on_grazing_witness :
    (vec3Dot (⟨0, 0, 1⟩ : Vec3 ℚ) ⟨0, 0, 1⟩ = 1 ∧
        fresnelTerm ⟨0, 0, 1⟩ ⟨0, 0, 1⟩ = 0) ∧
      vec3Dot (⟨0, 0, 1⟩ : Vec3 ℚ) ⟨1, 0, 0⟩ = 0 ∧
        fresnelTerm ⟨0, 0, 1⟩ ⟨1, 0, 0⟩ = 1 := by
  have h1 : vec3Dot (⟨0, 0, 1⟩ : Vec3 ℚ) ⟨0, 0, 1⟩ = 1 := by norm_num [vec3Dot]
  have h0 : vec3Dot (⟨0, 0, 1⟩ : Vec3 ℚ) ⟨1, 0, 0⟩ = 0 := by norm_num [vec3Dot]
  exact ⟨⟨h1, (glass_fresnel_head_on_grazing _ _).1 h1⟩,
    h0, (glass_fresnel_head_on_grazing _ _).2 h0⟩

/-! ### Claim C6: the alpha formula and its opacity floor -/

/-- C6: the glass alpha equals `(1 - transparency) * (0.2 + 0.8 * fresnel)`;
it is `0` at `transparency = 1, fresnel = 0`, it is `0.2` at
`transparency = 0, fresnel = 0`, and at `transparency = 0` it never drops
below `0.2`. -/
theorem glass_alpha_formula_bounds :
    ∀ t f : ℚ, 0 ≤ t → t ≤ 1 → 0 ≤ f → f ≤ 1 →
      glassAlpha t f = (1 - t) * (0.2 + 0.8 * f) ∧
        glassAlpha 1 0 = 0 ∧ glassAlpha 0 0 = 0.2 ∧ 0.2 ≤ glassAlpha 0 f := by
  intro t f ht0 ht1 hf0 hf1
  refine ⟨rfl, by norm_num [glassAlpha], by norm_num [glassAlpha], ?_⟩
  simp only [glassAlpha]
  nlinarith [hf0]

/-- C6 witness: instantiated at `transparency = 1/2`, `fresnel = 1/2`. -/
theorem glass_alpha_formula_bounds_witness :
    (0 ≤ (1 / 2 : ℚ) ∧ (1 / 2 : ℚ) ≤ 1) ∧
      glassAlpha (1 / 2) (1 / 2) = (1 - 1 / 2) * (0.2 + 0.8 * (1 / 2)) ∧
        glassAlpha 1 0 = 0 ∧ glassAlpha 0 0 = 0.2 ∧ 0.2 ≤ glassAlpha 0 (1 / 2) := by
  exact ⟨⟨by norm_num, by norm_num⟩,
    glass_alpha_formula_bounds (1 / 2) (1 / 2) (by norm_num) (by norm_num)
      (by norm_num) (by norm_num)⟩

/-! ### Claim C9: reflection sampling never uses invalid coordinates -/

/-- C9: when the mirrored clip-space `w` is at most `0.01` the reflection
texture is not sampled and the color falls back to `0.5 * tintedBase`; when
`w > 0.01` the sampled coordinate is the clamped UV, which lies in the unit
square. -/
theorem glass_reflection_sample_safety :
    ∀ (sample : ℚ → ℚ → Vec3 ℚ) (tintedBase : Vec3 ℚ) (clip : Vec4 ℚ),
      (clip.w ≤ 0.01 →
          glassReflColor sample tintedBase clip = vec3Scale tintedBase 0.5) ∧
        (clip.w > 0.01 →
          glassReflColor sample tintedBase clip =
              sample (glassReflUV clip).1 (glassReflUV clip).2 ∧
            0 ≤ (glassReflUV clip).1 ∧ (glassReflUV clip).1 ≤ 1 ∧
            0 ≤ (glassReflUV clip).2 ∧ (glassReflUV clip).2 ≤ 1) := by
  intro sample tintedBase clip
  constructor
  · intro h
    rw [glassReflColor, if_neg (not_lt.mpr h)]
  · intro h
    refine ⟨by rw [glassReflColor, if_pos h], ?_, ?_, ?_, ?_⟩ <;>
      simp only [glassReflUV, clampScalar]
    · exact le_min (le_max_right _ _) zero_le_one
    · exact min_le_right _ _
    · exact le_min (le_max_right _ _) zero_le_one
    · exact min_le_right _ _

/-- C9 witness: with `w = 0` the fallback color is used; with `w = 1` and an
off-screen `x/w = 3` the sampled UV is clamped into the unit square. -/
theorem glass_reflection_sample_safety_witness :
    ((⟨0, 0, 0, 0⟩ : Vec4 ℚ).w ≤ 0.01 ∧
        glassReflColor (fun u v => (⟨u, v, 0⟩ : Vec3 ℚ)) ⟨1, 1, 1⟩ ⟨0, 0, 0, 0⟩ =
          vec3Scale ⟨1, 1, 1⟩ 0.5) ∧
      (⟨3, -2, 0, 1⟩ : Vec4 ℚ).w > 0.01 ∧
        glassReflColor (fun u v => (⟨u, v, 0⟩ : Vec3 ℚ)) ⟨1, 1, 1⟩ ⟨3, -2, 0, 1⟩ =
            (fun u v => (⟨u, v, 0⟩ : Vec3 ℚ))
              (glassReflUV ⟨3, -2, 0, 1⟩).1 (glassReflUV ⟨3, -2, 0, 1⟩).2 ∧
          0 ≤ (glassReflUV (⟨3, -2, 0, 1⟩ : Vec4 ℚ)).1 ∧
          (glassReflUV (⟨3, -2, 0, 1⟩ : Vec4 ℚ)).1 ≤ 1 ∧
          0 ≤ (glassReflUV (⟨3, -2, 0, 1⟩ : Vec4 ℚ)).2 ∧
          (glassReflUV (⟨3, -2, 0, 1⟩ : Vec4 ℚ)).2 ≤ 1 := by
  have hA : (⟨0, 0, 0, 0⟩ : Vec4 ℚ).w ≤ 0.01 := by norm_num
  have hB : (⟨3, -2, 0, 1⟩ : Vec4 ℚ).w > 0.01 := by norm_num
  exact ⟨⟨hA, (glass_reflection_sample_safety _ _ _).1 hA⟩,
    hB, (glass_reflection_sample_safety _ _ _).2 hB⟩

/-! ### Claim C7: the mirrored camera and the reflection-pass clip test -/

lemma vec3Normalize_unitZ : vec3Normalize ⟨0, 0, 1⟩ = ⟨0, 0, 1⟩ := by
  norm_num [vec3Normalize, Real.sqrt_one, Vec3.mk.injEq]

/-- C7: for the glass plane `(0,0,1,0)`, the camera at `(0,0,5)` with forward
`(0,0,-1)` mirrors to position `(0,0,-5)` with forward `(0,0,1)` (using the
normalized plane normal exactly as `render()` does), and every world position
with `z < 0` has negative clip distance `dot((0,0,1,0), vec4(p,1))`, so the
reflection pass discards it. -/
theorem reflection_pass_mirror_clip :
    vec3Normalize ⟨0, 0, 1⟩ = ⟨0, 0, 1⟩ ∧
      reflectPointAcrossPlane (⟨0, 0, 5⟩ : Vec3 ℝ) (vec3Normalize ⟨0, 0, 1⟩) 0 =
          ⟨0, 0, -5⟩ ∧
      reflectDirectionAcrossPlane (⟨0, 0, -1⟩ : Vec3 ℝ) (vec3Normalize ⟨0, 0, 1⟩) =
          ⟨0, 0, 1⟩ ∧
      ∀ p : Vec3 ℝ, p.z < 0 → clipDistance ⟨0, 0, 1, 0⟩ p < 0 := by
  refine ⟨vec3Normalize_unitZ, ?_, ?_, ?_⟩
  · rw [vec3Normalize_unitZ]
    norm_num [reflectPointAcrossPlane, vec3Subtract, vec3Scale, vec3Dot, Vec3.mk.injEq]
  · rw [vec3Normalize_unitZ]
    norm_num [reflectDirectionAcrossPlane, vec3Subtract, vec3Scale, vec3Dot, Vec3.mk.injEq]
  · intro p hp
    simp only [clipDistance, vec4Dot]
    linarith

/-- C7 witness: the object at `(0,0,-2)` has negative clip distance in the
reflection pass. -/
theorem reflection_pass_mirror_clip_witness :
    (⟨0, 0, -2⟩ : Vec3 ℝ).z < 0 ∧
      clipDistance (⟨0, 0, 1, 0⟩ : Vec4 ℝ) ⟨0, 0, -2⟩ < 0 := by
  have h : (⟨0, 0, -2⟩ : Vec3 ℝ).z < 0 := by norm_num
  exact ⟨h, reflection_pass_mirror_clip.2.2.2 ⟨0, 0, -2⟩ h⟩

/-! ### Claim C8: framebuffer completeness failure is surfaced, not swallowed -/

/-- The WebGL enum `gl.FRAMEBUFFER_COMPLETE` (0x8CD5). -/
def FRAMEBUFFER_COMPLETE : Nat := 36053

/-- The WebGL resource state touched by `createFramebuffer`: a fresh-id
counter, the ids of deleted framebuffers, and the console error log. -/
structure GlState where
  nextId : Nat
  deleted : List Nat
  errors : List String
deriving DecidableEq

/-- `createFramebuffer` from gl.js, with the `checkFramebufferStatus` result
passed in as `status`: allocate a framebuffer, and if the status is not
`FRAMEBUFFER_COMPLETE` log an error, delete the framebuffer and return
`null` (here `none`); otherwise return the framebuffer. -/
def createFramebuffer (st : GlState) (status : Nat) : GlState × Option Nat :=
  let fbo := st.nextId
  let st1 : GlState := { st with nextId := st.nextId + 1 }
  if status ≠ FRAMEBUFFER_COMPLETE then
    ({ st1 with
        deleted := fbo :: st1.deleted,
        errors := "Framebuffer incomplete" :: st1.errors }, none)
  else (st1, some fbo)

/-- `createReflectionFbo` from main.js: the value stored into the
module-level `reflectionFbo` variable is exactly what `createFramebuffer`
returned. -/
def createReflectionFbo (st : GlState) (status : Nat) : GlState × Option Nat :=
  createFramebuffer st status

/-- C8: when the completeness check fails, `createFramebuffer` returns a
failure value (`none`) rather than a framebuffer, logs a non-silent error,
and deletes the incomplete framebuffer (so no caller can render into that
configuration); the resize path stores that same failure value as the
reflection FBO instead of keeping a handle to the incomplete render
target. -/
theorem createFramebuffer_incomplete_fails :
    ∀ (st : GlState) (status : Nat), status ≠ FRAMEBUFFER_COMPLETE →
      (createFramebuffer st status).2 = none ∧
        st.nextId ∈ (createFramebuffer st status).1.deleted ∧
        "Framebuffer incomplete" ∈ (createFramebuffer st status).1.errors ∧
        (createReflectionFbo st status).2 = none := by
  intro st status h
  simp [createFramebuffer, createReflectionFbo, h]

/-- C8 witness: status `36054` (`FRAMEBUFFER_INCOMPLETE_ATTACHMENT`) on a
fresh state fails the creation and records the deletion and the error. -/
theorem createFramebuffer_incomplete_fails_witness :
    (36054 ≠ FRAMEBUFFER_COMPLETE) ∧
      (createFramebuffer ⟨0, [], []⟩ 36054).2 = none ∧
        (0 : Nat) ∈ (createFramebuffer ⟨0, [], []⟩ 36054).1.deleted ∧
        "Framebuffer incomplete" ∈ (createFramebuffer ⟨0, [], []⟩ 36054).1.errors ∧
        (createReflectionFbo ⟨0, [], []⟩ 36054).2 = none := by
  have h : 36054 ≠ FRAMEBUFFER_COMPLETE := by
    norm_num [FRAMEBUFFER_COMPLETE]
  exact ⟨h, createFramebuffer_incomplete_fails ⟨0, [], []⟩ 36054 h⟩

/-! ### Claim C10: guarded normalize and degenerate look-at bases -/

lemma vec3Cross_parallel_normalize (v : Vec3 ℝ) (k : ℝ) :
    vec3Cross (vec3Scale v k) (vec3Normalize v) = ⟨0, 0, 0⟩ := by
  by_cases hlen : 0 < Real.sqrt (v.x * v.x + v.y * v.y + v.z * v.z)
  · simp only [vec3Normalize, if_pos hlen, vec3Cross, vec3Scale, Vec3.mk.injEq]
    refine ⟨?_, ?_, ?_⟩ <;> ring
  · simp only [vec3Normalize, if_neg hlen, vec3Cross, vec3Scale, Vec3.mk.injEq]
    refine ⟨?_, ?_, ?_⟩ <;> ring

/-- C10: `vec3Normalize` maps the zero vector to the zero vector instead of
dividing by zero, and for an `up` vector parallel to the eye-to-target axis
(`up = k * (eye - target)`) the look-at basis degrades to zero `x` and `y`
basis vectors — every entry remains a well-defined value, none is produced
by a division by zero. -/
theorem vec3Normalize_zero_lookAt_degenerate :
    vec3Normalize ⟨0, 0, 0⟩ = ⟨0, 0, 0⟩ ∧
      ∀ (eye target : Vec3 ℝ) (k : ℝ),
        mat4LookAt eye target (vec3Scale (vec3Subtract eye target) k) =
          lookAtMat ⟨0, 0, 0⟩ ⟨0, 0, 0⟩ (vec3Normalize (vec3Subtract eye target)) eye := by
  refine ⟨vec3Normalize_zero, ?_⟩
  intro eye target k
  have hy : vec3Cross (vec3Normalize (vec3Subtract eye target)) ⟨0, 0, 0⟩ = ⟨0, 0, 0⟩ := by
    simp [vec3Cross]
  simp only [mat4LookAt, vec3Cross_parallel_normalize, vec3Normalize_zero, hy]
